import Mathlib

/-!
Shallow embedding of the connection state machine, crypto handshake and
key-derivation code of `src/steamnetworkingsockets/clientlib/
steamnetworkingsockets_connections.cpp` (namespace SteamNetworkingSocketsLib).

Byte strings are modelled as `List Nat` (each element one byte), machine
integers as `Nat`/`Int` with explicit reductions modulo powers of two where
the C++ code relies on fixed-width wraparound.  External collaborators that
are not part of the translated source (protobuf parsing, Ed25519/X25519,
HMAC-SHA256, the AEAD cipher, the sequence-number tracker) are passed in as
explicit function parameters in a `CryptoEnv` record, so every theorem below
quantifies over their behaviour.
-/

namespace GNS

/-! ### Byte-level helpers -/

/-- Serialize a natural number as 8 little-endian bytes (a C `uint64` in
memory on a little-endian machine). -/
def u64toLE (n : Nat) : List Nat :=
  [n % 256, n / 256 % 256, n / 65536 % 256, n / 16777216 % 256,
   n / 4294967296 % 256, n / 1099511627776 % 256,
   n / 281474976710656 % 256, n / 72057594037927936 % 256]

/-- Read a little-endian byte string as a natural number (first byte is the
least significant). -/
def u64ofLE : List Nat → Nat
  | [] => 0
  | b :: rest => b + 256 * u64ofLE rest

/-- Serialize a natural number as 4 little-endian bytes (a C `uint32` in
memory on a little-endian machine; `LittleDWord` is the identity there). -/
def u32toLE (n : Nat) : List Nat :=
  [n % 256, n / 256 % 256, n / 65536 % 256, n / 16777216 % 256]

/-! ### Connection states

The `ESteamNetworkingConnectionState` enum itself is declared in the public
SDK header, which is not among the source files; only its use sites are.
-/

inductive ConnState where
  | None
  | Connecting
  | FindingRoute
  | Connected
  | ClosedByPeer
  | ProblemDetectedLocally
  | FinWait
  | Linger
  | Dead
deriving DecidableEq, Repr

/-- Modelled from the spec: numeric values of `ESteamNetworkingConnectionState`
(the enum is declared in the SDK header, outside the provided sources).
Application-visible states are non-negative; the hidden internal states
`FinWait`, `Linger` and `Dead` are assigned negative values. -/
def stateValue : ConnState → Int
  | .None => 0
  | .Connecting => 1
  | .FindingRoute => 2
  | .Connected => 3
  | .ClosedByPeer => 4
  | .ProblemDetectedLocally => 5
  | .FinWait => -1
  | .Linger => -2
  | .Dead => -3

/-- `CollapseConnectionStateToAPIState`: replace internal states that are not
visible outside of the API with the state shown to the application.  All the
hidden internal states are assigned negative values. -/
def CollapseConnectionStateToAPIState (eState : ConnState) : ConnState :=
  if stateValue eState < 0 then .None else eState

/-! ### End reason codes

Modelled from the spec: `ESteamNetConnectionEnd` ranges (application
`App_Min..App_Max` and `AppException_Min..AppException_Max`, local `Misc_*`,
remote `Bad*`); the enum itself lives in the SDK header, outside the provided
sources.  Reasons are carried as `Int` since the API accepts an arbitrary
`int`.
-/

def k_ESteamNetConnectionEnd_Invalid : Int := 0
def k_ESteamNetConnectionEnd_App_Min : Int := 1000
def k_ESteamNetConnectionEnd_App_Generic : Int := 1000
def k_ESteamNetConnectionEnd_App_Max : Int := 1999
def k_ESteamNetConnectionEnd_AppException_Min : Int := 2000
def k_ESteamNetConnectionEnd_AppException_Max : Int := 2999
def k_ESteamNetConnectionEnd_Misc_Generic : Int := 5001
def k_ESteamNetConnectionEnd_Misc_InternalError : Int := 5002
def k_ESteamNetConnectionEnd_Misc_Timeout : Int := 5003
def k_ESteamNetConnectionEnd_Remote_BadCrypt : Int := 4002
def k_ESteamNetConnectionEnd_Remote_BadCert : Int := 4003
def k_ESteamNetConnectionEnd_Remote_BadProtocolVersion : Int := 4006

/-! ### Identities and handshake protobuf messages -/

inductive Identity where
  | invalid
  | localHost
  | steamID (id : Nat)
  | ipAddr (addr : List Nat)
  | genericString (s : String)
  | genericBytes (b : List Nat)
deriving DecidableEq, Repr

/-- Modelled from the spec: `CMsgSteamDatagramCertificate_EKeyType_ED25519`
(proto enum declared outside the provided sources). -/
def k_EKeyType_ED25519 : Nat := 1

/-- Modelled from the spec: `CMsgSteamDatagramSessionCryptInfo_EKeyType_CURVE25519`
(proto enum declared outside the provided sources). -/
def k_EKeyType_CURVE25519 : Nat := 1

/-- Modelled from the spec: the current/minimum protocol version constants are
declared outside the provided sources; only `current ≥ min` matters here. -/
def k_nCurrentProtocolVersion : Nat := 5

/-- Modelled from the spec: minimum required peer protocol version. -/
def k_nMinRequiredProtocolVersion : Nat := 5

/-- `CMsgSteamDatagramCertificate` (inner certificate payload).  A cleared
protobuf message is the default value with all optional fields unset. -/
structure Cert where
  key_type : Nat := 0
  key_data : List Nat := []
  identity : Identity := .invalid
  app_id : Option Nat := none
  gameserver_datacenter_ids : List Nat := []
  time_expiry : Int := 0
deriving DecidableEq, Repr

/-- `CMsgSteamDatagramCertificateSigned` (outer envelope). -/
structure SignedCert where
  cert : Option (List Nat) := none
  ca_key_id : Nat := 0
  ca_signature : Option (List Nat) := none
deriving DecidableEq, Repr

/-- `CMsgSteamDatagramSessionCryptInfo`. -/
structure CryptInfo where
  protocol_version : Nat := 0
  key_type : Nat := 0
  key_data : List Nat := []
  nonce : Nat := 0
deriving DecidableEq, Repr

/-- `CMsgSteamDatagramSessionCryptInfoSigned`. -/
structure SignedCryptInfo where
  info : Option (List Nat) := none
  signature : List Nat := []
deriving DecidableEq, Repr

/-! ### The connection record

The fields of `CSteamNetworkConnectionBase` that the translated member
functions read or write.  Wiped byte buffers are `[]`, wiped AEAD contexts
are `none`, cleared protobuf members are the default record value.
-/

structure Conn where
  state : ConnState := .None
  usecWhenEnteredState : Nat := 0
  endReason : Int := 0
  endDebug : String := ""
  hConnectionSelf : Nat := 0
  unConnectionIDLocal : Nat := 0
  unConnectionIDRemote : Nat := 0
  identityRemote : Identity := .invalid
  nUserData : Int := -1
  msgSignedCertLocal : SignedCert := {}
  msgCertRemote : Cert := {}
  msgCryptRemote : CryptInfo := {}
  msgCryptLocal : CryptInfo := {}
  msgSignedCryptLocal : SignedCryptInfo := {}
  keyExchangePrivateKeyLocal : List Nat := []
  certHasIdentity : Bool := false
  cryptKeysValid : Bool := false
  cryptContextSend : Option (List Nat) := none
  cryptContextRecv : Option (List Nat) := none
  cryptIVSend : List Nat := []
  cryptIVRecv : List Nat := []
  recvQueue : List Nat := []
  statsDisconnected : Bool := true
  peerProtocolVersion : Nat := 0
  maxRecvPktNum : Int := 0
deriving DecidableEq, Repr

/-- `CSteamNetworkConnectionBase::ClearCrypto`: clear the remote cert and
crypt messages, wipe the local key-exchange private key and local crypt
messages, invalidate the derived keys and wipe both cipher contexts and base
IVs.  (`m_msgSignedCertLocal` is deliberately not cleared.) -/
def ClearCrypto (c : Conn) : Conn :=
  { c with
    msgCertRemote := {},
    msgCryptRemote := {},
    keyExchangePrivateKeyLocal := [],
    msgCryptLocal := {},
    msgSignedCryptLocal := {},
    certHasIdentity := false,
    cryptKeysValid := false,
    cryptContextSend := none,
    cryptContextRecv := none,
    cryptIVSend := [],
    cryptIVRecv := [] }

/-! ### Status-changed callbacks -/

/-- The subset of `SteamNetConnectionInfo_t` that `PopulateConnectionInfo`
fills in and that the claims mention. -/
structure ConnectionInfo where
  eState : ConnState
  identityRemote : Identity
  nUserData : Int
  eEndReason : Int
  szEndDebug : String
deriving DecidableEq, Repr

/-- `CSteamNetworkConnectionBase::PopulateConnectionInfo`: the state reported
to the application is the collapsed API state. -/
def PopulateConnectionInfo (c : Conn) : ConnectionInfo :=
  { eState := CollapseConnectionStateToAPIState c.state,
    identityRemote := c.identityRemote,
    nUserData := c.nUserData,
    eEndReason := c.endReason,
    szEndDebug := c.endDebug }

/-- `SteamNetConnectionStatusChangedCallback_t`. -/
structure StatusChangedCallback where
  info : ConnectionInfo
  eOldState : ConnState
  hConn : Nat
deriving DecidableEq, Repr

/-- The callback record built by
`CSteamNetworkConnectionBase::PostConnectionStateChangedCallback`. -/
def mkStatusCallback (c : Conn) (eOldAPIState : ConnState) : StatusChangedCallback :=
  { info := PopulateConnectionInfo c, eOldState := eOldAPIState,
    hConn := c.hConnectionSelf }

/-- `CSteamNetworkConnectionBase::PostConnectionStateChangedCallback`:
append the status-changed callback to the host callback queue. -/
def BasePostConnectionStateChangedCallback (c : Conn)
    (queue : List StatusChangedCallback)
    (eOldAPIState _eNewAPIState : ConnState) : List StatusChangedCallback :=
  queue ++ [mkStatusCallback c eOldAPIState]

/-- `CSteamNetworkConnectionPipe::PostConnectionStateChangedCallback`:
post no callback for the initial transitions (new API state `Connecting` or
`Connected`), otherwise defer to the base-class behaviour. -/
def PipePostConnectionStateChangedCallback (c : Conn)
    (queue : List StatusChangedCallback)
    (eOldAPIState eNewAPIState : ConnState) : List StatusChangedCallback :=
  if eNewAPIState = .Connecting ∨ eNewAPIState = .Connected then queue
  else BasePostConnectionStateChangedCallback c queue eOldAPIState eNewAPIState

/-! ### State-entry side effects -/

/-- `CSteamNetworkConnectionBase::ConnectionStateChanged` for an ordinary
connection (no attached messages-interface session): post a status-changed
callback when the collapsed API state changed, purge unread received
messages when the new API state is `None`, then update crypto/stats
bookkeeping according to the new state.  Returns the updated connection and
the callbacks it emitted. -/
def ConnectionStateChanged (c : Conn) (eOldState : ConnState) :
    Conn × List StatusChangedCallback :=
  let eOldAPIState := CollapseConnectionStateToAPIState eOldState
  let eNewAPIState := CollapseConnectionStateToAPIState c.state
  let cbs := if eOldAPIState ≠ eNewAPIState then [mkStatusCallback c eOldAPIState] else []
  let c := if eNewAPIState = .None then { c with recvQueue := [] } else c
  match c.state with
  | .Dead | .None | .ProblemDetectedLocally | .FinWait | .ClosedByPeer =>
    ({ ClearCrypto c with statsDisconnected := true }, cbs)
  | .Linger =>
    ({ c with statsDisconnected := true }, cbs)
  | .Connected | .FindingRoute =>
    ({ c with statsDisconnected := false }, cbs)
  | .Connecting => (c, cbs)

/-- `CSteamNetworkConnectionBase::SetState`: no-op when the state is
unchanged; otherwise record the entry time and run the state-change side
effects. -/
def SetState (c : Conn) (eNewState : ConnState) (usecNow : Nat) :
    Conn × List StatusChangedCallback :=
  if eNewState = c.state then (c, [])
  else ConnectionStateChanged
    { c with state := eNewState, usecWhenEnteredState := usecNow } c.state

/-- `CSteamNetworkConnectionBase::ConnectionState_FinWait`. -/
def ConnectionState_FinWait (c : Conn) (usecNow : Nat) :
    Conn × List StatusChangedCallback :=
  match c.state with
  | .Dead | .None => (c, [])
  | .FinWait => (c, [])
  | _ => SetState c .FinWait usecNow

/-- `CSteamNetworkConnectionBase::ConnectionState_ProblemDetectedLocally`:
record the end reason and debug string if no reason is set yet (or the
connection is lingering), then move to `ProblemDetectedLocally` from an
operating state, or to `FinWait` from `Linger`. -/
def ConnectionState_ProblemDetectedLocally (c : Conn) (eReason : Int)
    (msg : String) (usecNow : Nat) : Conn × List StatusChangedCallback :=
  let c :=
    if c.endReason = k_ESteamNetConnectionEnd_Invalid ∨ c.state = .Linger then
      { c with endReason := eReason, endDebug := msg }
    else c
  match c.state with
  | .Dead | .None => (c, [])
  | .ProblemDetectedLocally | .FinWait | .ClosedByPeer => (c, [])
  | .Linger => ConnectionState_FinWait c usecNow
  | .Connecting | .FindingRoute | .Connected =>
    SetState c .ProblemDetectedLocally usecNow

/-! ### External crypto collaborators

The functions below are implemented in `CCrypto`, the protobuf runtime and
the link-stats tracker, none of which are among the provided source files.
They are therefore abstract parameters: every theorem quantifies over them.
-/

structure CryptoEnv where
  /-- `CMsgSteamDatagramCertificate::ParseFromString`. -/
  parseCert : List Nat → Option Cert
  /-- `CMsgSteamDatagramSessionCryptInfo::ParseFromString`. -/
  parseCryptInfo : List Nat → Option CryptInfo
  /-- `CECSigningPublicKey::SetRawDataWithoutWipingInput` success. -/
  validSigningKey : List Nat → Bool
  /-- `CECSigningPublicKey::VerifySignature` (key, data, signature). -/
  verifySignature : List Nat → List Nat → List Nat → Bool
  /-- `CECKeyExchangePublicKey::SetRawDataWithoutWipingInput` success. -/
  validKeyExchangeKey : List Nat → Bool
  /-- `CCrypto::PerformKeyExchange` (local private key, remote public key). -/
  keyExchange : List Nat → List Nat → Option (List Nat)
  /-- `CCrypto::GenerateHMAC256` (data, key). -/
  hmac : List Nat → List Nat → List Nat
  /-- `AES_GCM_EncryptContext/DecryptContext::Init` success for a given key. -/
  ctxInit : List Nat → Bool
  /-- `SteamNetworkingIdentityFromCert`; an error carries `errMsg`. -/
  identityFromCert : Cert → Except String Identity
  /-- `SteamNetworkingIdentityRender`. -/
  renderIdentity : Identity → String
  /-- `CSteamID::BAnonGameServerAccount` of the identity. -/
  anonGameServer : Identity → Bool
  /-- `ISteamNetworkingSocketsSerialized::GetTimeSecure`. -/
  timeNow : Int
  /-- `CCrypto::GenerateSigningKeyPair` output (randomness). -/
  genSigningPub : List Nat
  genSigningPriv : List Nat
  /-- `CCrypto::GenerateKeyExchangeKeyPair` output (randomness). -/
  genKxPub : List Nat
  genKxPriv : List Nat
  /-- `CCrypto::GenerateRandomBlock` for the crypt nonce. -/
  genNonce : Nat
  /-- Protobuf `SerializeAsString`. -/
  serializeCert : Cert → List Nat
  serializeCryptInfo : CryptInfo → List Nat
  /-- `CECSigningPrivateKey::GenerateSignature` (private key, data). -/
  sign : List Nat → List Nat → List Nat
  /-- `SSNPacketGapAnalyzer`-side
  `LinkStatsTrackerBase::ExpandWirePacketNumberAndCheck`
  (current max received packet number, 16-bit wire sequence number). -/
  expandWirePacketNumber : Int → Nat → Int
  /-- `AES_GCM_DecryptContext::Decrypt` (context key, IV, ciphertext);
  `none` on tag-verification failure. -/
  aeadDecrypt : Option (List Nat) → List Nat → List Nat → Option (List Nat)

/-- The parameters supplied by the owning `CSteamNetworkingSockets`
interface and by connection-type virtual methods. -/
structure IfaceParams where
  /-- `m_pSteamNetworkingSocketsInterface->m_nAppID`. -/
  appID : Nat
  /-- `m_identityLocal`. -/
  identityLocal : Identity
  /-- Virtual `BAllowLocalUnsignedCert` (base class: true). -/
  allowLocalUnsignedCert : Bool := true
  /-- Virtual `AllowRemoteUnsignedCert`:
  0 = disallow, 1 = allow with warning (base class), 2 = allow (pipe). -/
  remoteUnsignedCertPolicy : Nat := 1
  /-- Virtual `BCheckRemoteCert` (base class: true). -/
  checkRemoteCert : Bool := true

/-- The compiled-in trusted CA key table `s_arTrustedKeys` (key id and raw
32-byte Ed25519 public key). -/
def s_arTrustedKeys : List (Nat × List Nat) :=
  [(18220590129359924542,
    [0x9a, 0xec, 0xa0, 0x4e, 0x17, 0x51, 0xce, 0x62,
     0x68, 0xd5, 0x69, 0x00, 0x2c, 0xa1, 0xe1, 0xfa,
     0x1b, 0x2d, 0xbc, 0x26, 0xd3, 0x6b, 0x4e, 0xa3,
     0xa0, 0x08, 0x3a, 0xd3, 0x72, 0x82, 0x9b, 0x84])]

/-! ### Local crypto initialization -/

/-- `CSteamNetworkConnectionBase::InitLocalCrypto`: save the signed cert,
set the current protocol version, generate an X25519 keypair (publishing the
public half in `m_msgCryptLocal`), pick a random 64-bit nonce, and serialize
and sign the session crypt info with the cert private key. -/
def InitLocalCrypto (env : CryptoEnv) (c : Conn) (msgSignedCert : SignedCert)
    (keyPrivate : List Nat) (bCertHasIdentity : Bool) : Conn :=
  let cryptLocal : CryptInfo :=
    { protocol_version := k_nCurrentProtocolVersion,
      key_type := k_EKeyType_CURVE25519,
      key_data := env.genKxPub,
      nonce := env.genNonce }
  let infoBytes := env.serializeCryptInfo cryptLocal
  { c with
    msgSignedCertLocal := msgSignedCert,
    certHasIdentity := bCertHasIdentity,
    msgCryptLocal := cryptLocal,
    keyExchangePrivateKeyLocal := env.genKxPriv,
    msgSignedCryptLocal :=
      { info := some infoBytes, signature := env.sign keyPrivate infoBytes } }

/-- `CSteamNetworkConnectionBase::InitLocalCryptoWithUnsignedCert`: generate
an Ed25519 keypair, build a self-signed cert bound to the local identity and
app id, serialize it unsigned, and continue with `InitLocalCrypto`. -/
def InitLocalCryptoWithUnsignedCert (env : CryptoEnv) (p : IfaceParams)
    (c : Conn) : Conn :=
  let msgCert : Cert :=
    { key_type := k_EKeyType_ED25519,
      key_data := env.genSigningPub,
      identity := p.identityLocal,
      app_id := some p.appID }
  let msgSignedCert : SignedCert := { cert := some (env.serializeCert msgCert) }
  InitLocalCrypto env c msgSignedCert env.genSigningPriv true

/-! ### HKDF-style key derivation (the extract-and-expand block of
`BRecvCryptoHandshake`, lines 994-1059 of the source) -/

/-- The four derived outputs: send/recv AEAD keys (32 bytes each) and
send/recv base IVs (12 bytes each). -/
structure DerivedKeys where
  keySend : List Nat
  keyRecv : List Nat
  ivSend : List Nat
  ivRecv : List Nat
deriving DecidableEq, Repr

/-- The fixed 14-byte context label `"Steam datagram"`. -/
def steamDatagramLabel : List Nat :=
  [83, 116, 101, 97, 109, 32, 100, 97, 116, 97, 103, 114, 97, 109]

/-- The extract-and-expand key derivation of `BRecvCryptoHandshake`.

Extract: `salt = nonce_remote_le ∥ nonce_local_le`, with the two 64-bit
halves swapped on the server, and `PRK = HMAC(salt, premaster)`.

Expand: the context body is the two little-endian connection IDs, the label
`"Steam datagram"`, and the four cert/crypt-info byte strings in the order
remote-cert, local-cert, remote-info, local-info; on the server the id pair
and both byte-string pairs are swapped.  Round `i ∈ {1,2,3,4}` appends byte
`i` (and, from round 2 on, prepends the previous digest) and takes
`HMAC(body, PRK)`; the four outputs fill, in order, key-send, key-recv,
iv-send, iv-recv on the client, and key-recv, key-send, iv-recv, iv-send on
the server (output sizes 32, 32, 12, 12 — the size swap in the source is a
no-op). -/
def deriveKeys (hmac : List Nat → List Nat → List Nat) (premaster : List Nat)
    (nonceLocal nonceRemote : Nat) (idLocal idRemote : Nat)
    (certLocalBytes certRemoteBytes infoLocalBytes infoRemoteBytes : List Nat)
    (bServer : Bool) : DerivedKeys :=
  let salt : List Nat :=
    if bServer then u64toLE nonceLocal ++ u64toLE nonceRemote
    else u64toLE nonceRemote ++ u64toLE nonceLocal
  let prk := hmac salt premaster
  let ids : List Nat :=
    if bServer then u32toLE idRemote ++ u32toLE idLocal
    else u32toLE idLocal ++ u32toLE idRemote
  let ctxStrings : List Nat :=
    if bServer then certLocalBytes ++ certRemoteBytes ++ infoLocalBytes ++ infoRemoteBytes
    else certRemoteBytes ++ certLocalBytes ++ infoRemoteBytes ++ infoLocalBytes
  let body := ids ++ steamDatagramLabel ++ ctxStrings
  let d1 := hmac (body ++ [1]) prk
  let d2 := hmac (d1.take 32 ++ body ++ [2]) prk
  let d3 := hmac (d2.take 32 ++ body ++ [3]) prk
  let d4 := hmac (d3.take 32 ++ body ++ [4]) prk
  if bServer then
    { keySend := d2.take 32, keyRecv := d1.take 32,
      ivSend := d4.take 12, ivRecv := d3.take 12 }
  else
    { keySend := d1.take 32, keyRecv := d2.take 32,
      ivSend := d3.take 12, ivRecv := d4.take 12 }

/-! ### BRecvCryptoHandshake -/

/-- A handshake failure site: run
`ConnectionState_ProblemDetectedLocally(eReason, msg)` and return `false`. -/
def hsFail (c : Conn) (eReason : Int) (msg : String) (usecNow : Nat) :
    Bool × Conn × List StatusChangedCallback :=
  let r := ConnectionState_ProblemDetectedLocally c eReason msg usecNow
  (false, r.1, r.2)

/-- The scan of the trusted CA key list in `BRecvCryptoHandshake`:
`some true` when a matching key verifies the signature, `some false` when a
matching key is found but the signature length or verification fails
(the loop fails immediately in that case), `none` when no trusted key has
the presented `ca_key_id`. -/
def checkTrustedKeys (env : CryptoEnv) (caKeyId : Nat)
    (certBytes sig : List Nat) : List (Nat × List Nat) → Option Bool
  | [] => none
  | (kid, kdata) :: rest =>
    if caKeyId ≠ kid then checkTrustedKeys env caKeyId certBytes sig rest
    else if sig.length = 64 ∧ env.verifySignature kdata certBytes sig then some true
    else some false

/-- Stage 4 of `BRecvCryptoHandshake` (lines 939-1082): parse the session
crypt info, police the protocol version, validate the peer X25519 key,
perform the key exchange (wiping the local private key), derive the session
keys and IVs, and initialize both cipher contexts. -/
def recvHandshakeCrypt (env : CryptoEnv) (c : Conn)
    (certBytes infoBytes : List Nat) (bServer : Bool) (usecNow : Nat) :
    Bool × Conn × List StatusChangedCallback :=
  match env.parseCryptInfo infoBytes with
  | none => hsFail c k_ESteamNetConnectionEnd_Remote_BadCrypt
      "Crypt info failed protobuf decode" usecNow
  | some cryptRemote =>
    let c := { c with msgCryptRemote := cryptRemote }
    if cryptRemote.protocol_version < k_nMinRequiredProtocolVersion then
      hsFail c k_ESteamNetConnectionEnd_Remote_BadProtocolVersion
        ("Peer is running old software and needs to be updated.  (V" ++
         toString cryptRemote.protocol_version ++ ", >=V" ++
         toString k_nMinRequiredProtocolVersion ++ " is required)") usecNow
    else if c.peerProtocolVersion ≠ 0 ∧
        c.peerProtocolVersion ≠ cryptRemote.protocol_version then
      hsFail c k_ESteamNetConnectionEnd_Remote_BadProtocolVersion
        ("Claiming protocol V" ++ toString cryptRemote.protocol_version ++
         " now, but earlier was using V" ++ toString c.peerProtocolVersion) usecNow
    else
      let c := { c with peerProtocolVersion := cryptRemote.protocol_version }
      if cryptRemote.key_type ≠ k_EKeyType_CURVE25519 then
        hsFail c k_ESteamNetConnectionEnd_Remote_BadCrypt
          "Unsupported DH key type" usecNow
      else if ¬ env.validKeyExchangeKey cryptRemote.key_data then
        hsFail c k_ESteamNetConnectionEnd_Remote_BadCrypt "Invalid DH key" usecNow
      else
        match env.keyExchange c.keyExchangePrivateKeyLocal cryptRemote.key_data with
        | none => hsFail c k_ESteamNetConnectionEnd_Remote_BadCrypt
            "Key exchange failed" usecNow
        | some premasterSecret =>
          let c := { c with keyExchangePrivateKeyLocal := [] }
          let dk := deriveKeys env.hmac premasterSecret
            c.msgCryptLocal.nonce cryptRemote.nonce
            c.unConnectionIDLocal c.unConnectionIDRemote
            (c.msgSignedCertLocal.cert.getD []) certBytes
            (c.msgSignedCryptLocal.info.getD []) infoBytes bServer
          let c := { c with cryptIVSend := dk.ivSend, cryptIVRecv := dk.ivRecv }
          if env.ctxInit dk.keySend && env.ctxInit dk.keyRecv then
            (true,
             { c with
               cryptContextSend := some dk.keySend,
               cryptContextRecv := some dk.keyRecv,
               cryptKeysValid := true },
             [])
          else
            hsFail c k_ESteamNetConnectionEnd_Remote_BadCrypt
              "Error initializing crypto" usecNow

/-- Stage 3 of `BRecvCryptoHandshake` (lines 873-937): check the CA
signature against the compiled-in trusted key table (an expired cert only
logs a warning), or apply the remote-unsigned-cert policy. -/
def recvHandshakeSignature (env : CryptoEnv) (p : IfaceParams) (c : Conn)
    (msgCert : SignedCert) (certBytes infoBytes : List Nat) (bServer : Bool)
    (usecNow : Nat) : Bool × Conn × List StatusChangedCallback :=
  match msgCert.ca_signature with
  | some sig =>
    match checkTrustedKeys env msgCert.ca_key_id certBytes sig s_arTrustedKeys with
    | some true =>
      if p.checkRemoteCert then
        recvHandshakeCrypt env c certBytes infoBytes bServer usecNow
      else (false, c, [])
    | some false =>
      hsFail c k_ESteamNetConnectionEnd_Remote_BadCert
        "Invalid cert signature" usecNow
    | none =>
      hsFail c k_ESteamNetConnectionEnd_Remote_BadCert
        ("Cert signed with key " ++ toString msgCert.ca_key_id ++
         "; not in trusted list") usecNow
  | none =>
    if p.remoteUnsignedCertPolicy = 1 ∨ p.remoteUnsignedCertPolicy = 2 then
      recvHandshakeCrypt env c certBytes infoBytes bServer usecNow
    else if c.state ≠ .ProblemDetectedLocally then
      hsFail c k_ESteamNetConnectionEnd_Remote_BadCert
        "Unsigned certs are not allowed" usecNow
    else (false, c, [])

/-- The datacenter-cert special case and identity cross-check of
`BRecvCryptoHandshake` (lines 833-871), following the AppID check: a
CA-signed cert with a datacenter restriction is only for anonymous game
servers; otherwise the cert must carry an app id and its bound identity must
match the expected remote identity, with a special allowance for an
unsigned anonymous `LocalHost` cert. -/
def recvHandshakeIdentityChecks (env : CryptoEnv) (p : IfaceParams) (c : Conn)
    (msgCert : SignedCert) (certRemote : Cert)
    (certBytes infoBytes : List Nat) (bServer : Bool) (usecNow : Nat) :
    Bool × Conn × List StatusChangedCallback :=
  if certRemote.gameserver_datacenter_ids ≠ [] ∧ msgCert.ca_signature.isSome then
    if ¬ env.anonGameServer c.identityRemote then
      hsFail c k_ESteamNetConnectionEnd_Remote_BadCert
        ("Certs restricted data center are for anon GS only.  Not " ++
         env.renderIdentity c.identityRemote) usecNow
    else recvHandshakeSignature env p c msgCert certBytes infoBytes bServer usecNow
  else
    if certRemote.app_id.isNone then
      hsFail c k_ESteamNetConnectionEnd_Remote_BadCert
        "Cert must be bound to an AppID." usecNow
    else
      match env.identityFromCert certRemote with
      | .error errMsg =>
        hsFail c k_ESteamNetConnectionEnd_Remote_BadCert
          ("Bad cert identity.  " ++ errMsg) usecNow
      | .ok identityCert =>
        if identityCert = c.identityRemote then
          recvHandshakeSignature env p c msgCert certBytes infoBytes bServer usecNow
        else if identityCert = .localHost ∧ msgCert.ca_signature.isNone then
          recvHandshakeSignature env p c msgCert certBytes infoBytes bServer usecNow
        else
          hsFail c k_ESteamNetConnectionEnd_Remote_BadCert
            ("Cert was issued to " ++ env.renderIdentity identityCert ++
             ", not " ++ env.renderIdentity c.identityRemote) usecNow

/-- Stage 2 of `BRecvCryptoHandshake` (lines 823-871): the AppID binding
check, followed by the datacenter/identity checks. -/
def recvHandshakeCertChecks (env : CryptoEnv) (p : IfaceParams) (c : Conn)
    (msgCert : SignedCert) (certRemote : Cert) (certBytes infoBytes : List Nat)
    (bServer : Bool) (usecNow : Nat) : Bool × Conn × List StatusChangedCallback :=
  match certRemote.app_id with
  | some aid =>
    if aid ≠ p.appID then
      hsFail c k_ESteamNetConnectionEnd_Remote_BadCert
        ("Cert is for AppID " ++ toString aid ++ " instead of " ++
         toString p.appID) usecNow
    else recvHandshakeIdentityChecks env p c msgCert certRemote certBytes
      infoBytes bServer usecNow
  | none =>
    recvHandshakeIdentityChecks env p c msgCert certRemote certBytes
      infoBytes bServer usecNow

/-- `CSteamNetworkConnectionBase::BRecvCryptoHandshake`: succeed silently if
key exchange already happened; otherwise require both cert and session-info
payloads, parse and sanity-check the peer cert, ensure a local cert exists
(falling back to an unsigned self-signed cert, with only a warning even
when that is not supposed to be allowed), then run the cert checks,
signature policy and key derivation. -/
def BRecvCryptoHandshake (env : CryptoEnv) (p : IfaceParams) (c : Conn)
    (msgCert : SignedCert) (msgSessionInfo : SignedCryptInfo) (bServer : Bool)
    (usecNow : Nat) : Bool × Conn × List StatusChangedCallback :=
  if c.cryptKeysValid then (true, c, [])
  else
    match msgCert.cert, msgSessionInfo.info with
    | none, _ =>
      hsFail c k_ESteamNetConnectionEnd_Remote_BadCrypt
        "Crypto handshake missing cert or session data" usecNow
    | some _, none =>
      hsFail c k_ESteamNetConnectionEnd_Remote_BadCrypt
        "Crypto handshake missing cert or session data" usecNow
    | some certBytes, some infoBytes =>
      match env.parseCert certBytes with
      | none =>
        hsFail c k_ESteamNetConnectionEnd_Remote_BadCrypt
          "Cert failed protobuf decode" usecNow
      | some certRemote =>
        let c := { c with msgCertRemote := certRemote }
        if certRemote.key_type ≠ k_EKeyType_ED25519 then
          hsFail c k_ESteamNetConnectionEnd_Remote_BadCrypt
            "Unsupported identity key type" usecNow
        else if ¬ env.validSigningKey certRemote.key_data then
          hsFail c k_ESteamNetConnectionEnd_Remote_BadCrypt
            "Cert has invalid identity key" usecNow
        else
          let c :=
            if c.msgSignedCertLocal.cert.isSome then c
            else InitLocalCryptoWithUnsignedCert env p c
          recvHandshakeCertChecks env p c msgCert certRemote certBytes
            infoBytes bServer usecNow

/-! ### Packet decryption (`DecryptDataChunk`) -/

/-- The in-place IV adjustment `*(uint64 *)&m_cryptIVRecv.m_buf += seq`:
the first 8 bytes of the 12-byte IV, read as a little-endian 64-bit
integer, are incremented by the sequence number modulo `2^64`; the
remaining bytes are untouched. -/
def adjustIVAdd (iv : List Nat) (seq : Nat) : List Nat :=
  u64toLE ((u64ofLE (iv.take 8) + seq) % 18446744073709551616) ++ iv.drop 8

/-- The restoring adjustment `*(uint64 *)&m_cryptIVRecv.m_buf -= seq`
(64-bit wraparound subtraction). -/
def adjustIVSub (iv : List Nat) (seq : Nat) : List Nat :=
  u64toLE ((u64ofLE (iv.take 8) + (18446744073709551616 - seq % 18446744073709551616))
    % 18446744073709551616) ++ iv.drop 8

/-- One lowercase hexadecimal digit. -/
def hexDigitChar (n : Nat) : Char :=
  if n < 10 then Char.ofNat (48 + n) else Char.ofNat (87 + n)

/-- `%04x` of a 16-bit value. -/
def hex4 (n : Nat) : String :=
  String.mk [hexDigitChar (n / 4096 % 16), hexDigitChar (n / 256 % 16),
             hexDigitChar (n / 16 % 16), hexDigitChar (n % 16)]

/-- The result of `DecryptDataChunk`: the returned full sequence number
(0 on any drop), the updated connection, the emitted callbacks, and the
plaintext written to the output buffer (`none` if decryption failed). -/
structure DecryptResult where
  ret : Int
  conn : Conn
  cbs : List StatusChangedCallback
  decrypted : Option (List Nat)
deriving DecidableEq, Repr

/-- `CSteamNetworkConnectionBase::DecryptDataChunk`: expand the 16-bit wire
sequence number to the full 64-bit one (drop if not positive), add it to the
base recv IV, decrypt-and-authenticate with that IV, restore the IV, drop
silently on tag failure, then police the sequence gap: a lurch of more than
`0x4000` past the maximum received sequence number is a local problem
(`Misc_Generic`); otherwise return the full sequence number. -/
def DecryptDataChunk (env : CryptoEnv) (c : Conn) (nWireSeqNum : Nat)
    (chunk : List Nat) (usecNow : Nat) : DecryptResult :=
  let nFullSequenceNumber := env.expandWirePacketNumber c.maxRecvPktNum nWireSeqNum
  if nFullSequenceNumber ≤ 0 then
    { ret := 0, conn := c, cbs := [], decrypted := none }
  else
    let c := { c with cryptIVRecv := adjustIVAdd c.cryptIVRecv nFullSequenceNumber.toNat }
    let decOut := env.aeadDecrypt c.cryptContextRecv c.cryptIVRecv chunk
    let c := { c with cryptIVRecv := adjustIVSub c.cryptIVRecv nFullSequenceNumber.toNat }
    match decOut with
    | none => { ret := 0, conn := c, cbs := [], decrypted := none }
    | some plain =>
      let nGap := nFullSequenceNumber - c.maxRecvPktNum
      if nGap > 0x4000 then
        let r := ConnectionState_ProblemDetectedLocally c
          k_ESteamNetConnectionEnd_Misc_Generic
          ("Pkt number lurch by " ++ toString nGap ++ "; " ++
           hex4 (c.maxRecvPktNum % 65536).toNat ++ "->" ++ hex4 nWireSeqNum)
          usecNow
        { ret := 0, conn := r.1, cbs := r.2, decrypted := some plain }
      else
        { ret := nFullSequenceNumber, conn := c, cbs := [], decrypted := some plain }

/-! ### APICloseConnection -/

/-- The reason-recording block of `APICloseConnection` (lines 1352-1382):
when the connection may still record an end reason, validate and record the
application-supplied reason and, if no debug string is recorded yet, the
debug string. -/
def APICloseConnection_record (c : Conn) (nReason : Int)
    (pszDebug : Option String) : Conn :=
  if c.endReason = k_ESteamNetConnectionEnd_Invalid ∨ c.state = .Connecting ∨
      c.state = .FindingRoute ∨ c.state = .Connected then
    let rd : Int × Option String :=
      if nReason = 0 then (k_ESteamNetConnectionEnd_App_Generic, pszDebug)
      else if nReason < k_ESteamNetConnectionEnd_App_Min ∨
          nReason > k_ESteamNetConnectionEnd_AppException_Max then
        (k_ESteamNetConnectionEnd_App_Max, some "Invalid numeric reason code")
      else (nReason, pszDebug)
    let c1 := { c with endReason := rd.1 }
    if c1.endDebug = "" then
      let msg :=
        match rd.2 with
        | none =>
          if rd.1 ≥ k_ESteamNetConnectionEnd_AppException_Min then
            "Application closed connection in an unusual way"
          else "Application closed connection"
        | some s =>
          if s = "" then
            if rd.1 ≥ k_ESteamNetConnectionEnd_AppException_Min then
              "Application closed connection in an unusual way"
            else "Application closed connection"
          else s
      { c1 with endDebug := msg }
    else c1
  else c

/-- The state switch of `APICloseConnection` (lines 1384-1414). -/
def APICloseConnection_switch (c : Conn) (bEnableLinger : Bool)
    (usecNow : Nat) : Conn × List StatusChangedCallback :=
  match c.state with
  | .Dead | .None | .FinWait | .Linger => (c, [])
  | .ClosedByPeer | .ProblemDetectedLocally | .Connecting | .FindingRoute =>
    ConnectionState_FinWait c usecNow
  | .Connected =>
    if bEnableLinger then SetState c .Linger usecNow
    else ConnectionState_FinWait c usecNow

/-- `CSteamNetworkConnectionBase::APICloseConnection`: when the connection
may still record an end reason (none recorded yet, or it is in an operating
state), validate the application-supplied reason — 0 becomes `App_Generic`;
anything nonzero outside `[App_Min..AppException_Max]` becomes `App_Max`
with debug string "Invalid numeric reason code" — and record it, filling in
a default debug string if none was recorded before.  Then close: operating
and already-closed states go to `FinWait`, except that a `Connected`
connection closed with the linger flag goes to `Linger`. -/
def APICloseConnection (c : Conn) (nReason : Int) (pszDebug : Option String)
    (bEnableLinger : Bool) (usecNow : Nat) : Conn × List StatusChangedCallback :=
  APICloseConnection_switch (APICloseConnection_record c nReason pszDebug)
    bEnableLinger usecNow

/-! ### Connection-ID allocation (`BInitConnection`, lines 476-541) -/

/-- The sanity checks a candidate connection ID must pass (lines 496-508):
neither 16-bit half zero, the low half not among the recently used IDs
(`s_vecRecentLocalConnectionIDs`) and not colliding with a live connection
(`g_mapConnections`, keyed by the low 16 bits).  `recent` and `live` hold
the low-16-bit values present in the ring and the live map. -/
def connIDOk (recent live : List Nat) (cand : Nat) : Bool :=
  (cand % 65536 != 0) && (cand / 65536 % 65536 != 0) &&
  !(recent.contains (cand % 65536)) && !(live.contains (cand % 65536))

/-- The ID-selection loop of `BInitConnection`: `cands i` is the `i`-th
32-bit output of `CCrypto::GenerateRandomBlock`; a candidate failing the
sanity checks is discarded and a fresh one generated; after 10000 failed
tries the whole call fails with "Unable to find unique connection ID". -/
def pickConnIDLoop (cands : Nat → Nat) (recent live : List Nat) :
    Nat → Nat → Except String Nat
  | _, 0 => .error "Unable to find unique connection ID"
  | i, fuel + 1 =>
    let cand := cands i % 4294967296
    if connIDOk recent live cand then .ok cand
    else pickConnIDLoop cands recent live (i + 1) fuel

/-- The connection-ID selection of `BInitConnection`: fail immediately when
the live-connection table is full (0x1fff entries), otherwise run the
random-candidate loop with 10000 tries. -/
def BInitConnection_SelectID (cands : Nat → Nat) (recent live : List Nat) :
    Except String Nat :=
  if live.length ≥ 0x1fff then .error "Too many connections."
  else pickConnIDLoop cands recent live 0 10000

/-! ### The per-packet IV as the specification describes it -/

/-- The claimed IV construction: the base IV with its first 8 bytes, read as
a little-endian 64-bit integer, XORed with the full sequence number, the
remaining 4 bytes unchanged.  This follows the specification text and is
compared against `adjustIVAdd`, which is translated from the source. -/
def specXorIV (iv : List Nat) (seq : Nat) : List Nat :=
  u64toLE (Nat.xor (u64ofLE (iv.take 8)) (seq % 18446744073709551616)) ++ iv.drop 8

/-! ### Sample data used by the witnesses -/

/-- A concrete crypto environment for evaluating the model at specific
inputs (the theorems themselves quantify over arbitrary environments). -/
def sampleRemoteCert : Cert :=
  { key_type := k_EKeyType_ED25519, key_data := [1], identity := .localHost,
    app_id := some 480 }

def sampleRemoteCrypt : CryptInfo :=
  { protocol_version := 5, key_type := k_EKeyType_CURVE25519,
    key_data := [2], nonce := 3 }

/-- A peer cert bound to a different app (730 instead of 480). -/
def sampleRemoteCert730 : Cert :=
  { sampleRemoteCert with app_id := some 730 }

def sampleEnv : CryptoEnv :=
  { parseCert := fun b =>
      if b = [10] then some sampleRemoteCert
      else if b = [14] then some sampleRemoteCert730 else none,
    parseCryptInfo := fun b => if b = [11] then some sampleRemoteCrypt else none,
    validSigningKey := fun _ => true,
    verifySignature := fun _ _ _ => true,
    validKeyExchangeKey := fun _ => true,
    keyExchange := fun _ _ => some [7],
    hmac := fun data key => data ++ key,
    ctxInit := fun _ => true,
    identityFromCert := fun _ => .ok .localHost,
    renderIdentity := fun _ => "id",
    anonGameServer := fun _ => false,
    timeNow := 0,
    genSigningPub := [1], genSigningPriv := [2],
    genKxPub := [3], genKxPriv := [4], genNonce := 7,
    serializeCert := fun _ => [9], serializeCryptInfo := fun _ => [8],
    sign := fun _ _ => [5],
    expandWirePacketNumber := fun _ w => (w : Int),
    aeadDecrypt := fun _ iv _ => some iv }

/-- A connected connection with valid keys, as it is after a completed
handshake. -/
def sampleConnected : Conn :=
  { state := .Connected, endReason := 0, endDebug := "",
    hConnectionSelf := 77, unConnectionIDLocal := 77,
    identityRemote := .localHost, cryptKeysValid := true,
    cryptContextSend := some [21], cryptContextRecv := some [22],
    cryptIVSend := [1, 0, 0, 0, 0, 0, 0, 0, 9, 9, 9, 9],
    cryptIVRecv := [1, 0, 0, 0, 0, 0, 0, 0, 9, 9, 9, 9],
    keyExchangePrivateKeyLocal := [],
    msgSignedCertLocal := { cert := some [12] },
    msgSignedCryptLocal := { info := some [13] },
    statsDisconnected := false, maxRecvPktNum := 100 }

/-- A connection in the `Connecting` state that has not completed the
handshake, with a local cert installed. -/
def sampleConnecting : Conn :=
  { state := .Connecting, endReason := 0, endDebug := "",
    hConnectionSelf := 55, unConnectionIDLocal := 55,
    identityRemote := .localHost, cryptKeysValid := false,
    keyExchangePrivateKeyLocal := [4],
    msgSignedCertLocal := { cert := some [12] },
    msgSignedCryptLocal := { info := some [13] } }

/-- The connected sample connection with no packets received yet, used to
probe the IV handed to the cipher. -/
def sampleConnectedIVProbe : Conn :=
  { sampleConnected with maxRecvPktNum := 0 }

/-! ## Theorems -/

/-! Byte-encoding helper lemmas. -/

theorem u64toLE_length (n : Nat) : (u64toLE n).length = 8 := rfl

theorem u64ofLE_u64toLE (n : Nat) : u64ofLE (u64toLE n) = n % 18446744073709551616 := by
  simp only [u64toLE, u64ofLE]
  omega

theorem u64toLE_u64ofLE (l : List Nat) (hlen : l.length = 8)
    (hbytes : ∀ b ∈ l, b < 256) : u64toLE (u64ofLE l) = l := by
  match l, hlen with
  | [b0, b1, b2, b3, b4, b5, b6, b7], _ =>
    simp only [List.mem_cons, forall_eq_or_imp] at hbytes
    obtain ⟨h0, h1, h2, h3, h4, h5, h6, h7, -⟩ := hbytes
    simp only [u64ofLE, u64toLE, List.cons.injEq, and_true]
    omega

theorem u64ofLE_lt (l : List Nat) (hlen : l.length = 8)
    (hbytes : ∀ b ∈ l, b < 256) : u64ofLE l < 18446744073709551616 := by
  match l, hlen with
  | [b0, b1, b2, b3, b4, b5, b6, b7], _ =>
    simp only [List.mem_cons, forall_eq_or_imp] at hbytes
    simp only [u64ofLE]
    omega

/-- C1.  Key-derivation role symmetry: for every HMAC function, premaster
secret, pair of nonces, pair of connection IDs, and pair of cert/crypt-info
byte strings, running the extract-and-expand derivation of
`BRecvCryptoHandshake` once with `is_server = false` and once with
`is_server = true` (local/remote inputs exchanged between the runs) yields
matching directional material: the client key-send equals the server
key-recv and vice versa, and likewise for the IVs. -/
theorem deriveKeys_role_symmetry (hmac : List Nat → List Nat → List Nat)
    (premaster : List Nat) (nonceClient nonceServer : Nat)
    (idClient idServer : Nat) (certClient certServer infoClient infoServer : List Nat) :
    (deriveKeys hmac premaster nonceClient nonceServer idClient idServer
        certClient certServer infoClient infoServer false).keySend =
      (deriveKeys hmac premaster nonceServer nonceClient idServer idClient
        certServer certClient infoServer infoClient true).keyRecv ∧
    (deriveKeys hmac premaster nonceClient nonceServer idClient idServer
        certClient certServer infoClient infoServer false).keyRecv =
      (deriveKeys hmac premaster nonceServer nonceClient idServer idClient
        certServer certClient infoServer infoClient true).keySend ∧
    (deriveKeys hmac premaster nonceClient nonceServer idClient idServer
        certClient certServer infoClient infoServer false).ivSend =
      (deriveKeys hmac premaster nonceServer nonceClient idServer idClient
        certServer certClient infoServer infoClient true).ivRecv ∧
    (deriveKeys hmac premaster nonceClient nonceServer idClient idServer
        certClient certServer infoClient infoServer false).ivRecv =
      (deriveKeys hmac premaster nonceServer nonceClient idServer idClient
        certServer certClient infoServer infoClient true).ivSend :=
  ⟨rfl, rfl, rfl, rfl⟩

/-- C7.  Handshake idempotence: once `m_bCryptKeysValid` is set, any further
call to `BRecvCryptoHandshake` — with any cert/crypt-info arguments, for
either role — returns true and leaves the connection completely unchanged,
emitting no callbacks. -/
theorem BRecvCryptoHandshake_idempotent (env : CryptoEnv) (p : IfaceParams)
    (c : Conn) (msgCert : SignedCert) (msgSessionInfo : SignedCryptInfo)
    (bServer : Bool) (usecNow : Nat) (h : c.cryptKeysValid = true) :
    BRecvCryptoHandshake env p c msgCert msgSessionInfo bServer usecNow =
      (true, c, []) := by
  simp [BRecvCryptoHandshake, h]

/-- Witness for C7: a second handshake on an already-valid connection, with
completely different arguments, returns true and changes nothing. -/
theorem BRecvCryptoHandshake_idempotent_witness :
    BRecvCryptoHandshake sampleEnv { appID := 480, identityLocal := .localHost }
      sampleConnected { cert := some [99], ca_key_id := 1 }
      { info := some [98] } true 12345 = (true, sampleConnected, []) :=
  BRecvCryptoHandshake_idempotent sampleEnv
    { appID := 480, identityLocal := .localHost } sampleConnected
    { cert := some [99], ca_key_id := 1 } { info := some [98] } true 12345 rfl

/-- C10.  `CSteamNetworkConnectionPipe::PostConnectionStateChangedCallback`
posts nothing when the new collapsed API state is `Connecting` or
`Connected` (the host callback queue is unchanged), and behaves exactly like
the base-class callback post for every other new API state. -/
theorem pipe_post_callback_suppression (c : Conn)
    (queue : List StatusChangedCallback) (eOldAPIState eNewAPIState : ConnState) :
    ((eNewAPIState = .Connecting ∨ eNewAPIState = .Connected) →
      PipePostConnectionStateChangedCallback c queue eOldAPIState eNewAPIState = queue) ∧
    (¬ (eNewAPIState = .Connecting ∨ eNewAPIState = .Connected) →
      PipePostConnectionStateChangedCallback c queue eOldAPIState eNewAPIState =
        BasePostConnectionStateChangedCallback c queue eOldAPIState eNewAPIState) := by
  constructor <;> intro h <;>
    simp [PipePostConnectionStateChangedCallback, h]

/-- Witness for C10: on a concrete pipe connection, a transition into
`Connected` leaves the queue untouched and a transition into `None` appends
the ordinary callback. -/
theorem pipe_post_callback_suppression_witness :
    PipePostConnectionStateChangedCallback sampleConnected [] .Connecting .Connected = [] ∧
    PipePostConnectionStateChangedCallback sampleConnected [] .Connected .None =
      BasePostConnectionStateChangedCallback sampleConnected [] .Connected .None :=
  ⟨(pipe_post_callback_suppression sampleConnected [] .Connecting .Connected).1
      (Or.inr rfl),
   (pipe_post_callback_suppression sampleConnected [] .Connected .None).2
      (by decide)⟩

/-- Counterexample for C4.  A connection in the internal `Linger` state is
reported to the application as `None`, not `Connected`: `Linger` has a
negative state value, so `CollapseConnectionStateToAPIState` maps it to
`None`, and that is the state `PopulateConnectionInfo` reports. -/
theorem linger_reported_state_counterexample :
    (PopulateConnectionInfo { sampleConnected with state := .Linger }).eState =
      ConnState.None ∧
    ConnState.None ≠ ConnState.Connected :=
  ⟨rfl, by decide⟩

/-- C4 (amended).  For every connection in the `Linger` state, the
application-visible state reported in connection info and in status-changed
callbacks is `None` (internal states all collapse to `None`). -/
theorem linger_collapses_to_none (c : Conn) (h : c.state = .Linger) :
    (PopulateConnectionInfo c).eState = ConnState.None ∧
    (∀ eOldAPIState, (mkStatusCallback c eOldAPIState).info.eState = ConnState.None) := by
  constructor
  · simp [PopulateConnectionInfo, CollapseConnectionStateToAPIState, h, stateValue]
  · intro old
    simp [mkStatusCallback, PopulateConnectionInfo,
      CollapseConnectionStateToAPIState, h, stateValue]

/-- Witness for C4 (amended): a concrete lingering connection reports state
`None` everywhere. -/
theorem linger_collapses_to_none_witness :
    (PopulateConnectionInfo { sampleConnected with state := .Linger }).eState =
      ConnState.None ∧
    (∀ eOldAPIState,
      (mkStatusCallback { sampleConnected with state := .Linger }
        eOldAPIState).info.eState = ConnState.None) :=
  linger_collapses_to_none { sampleConnected with state := .Linger } rfl

/-- Counterexample for C3.  Transitioning a connected connection with valid
keys into `Linger` leaves `m_bCryptKeysValid` true and the base IVs intact:
the crypto state is not wiped on entry into `Linger` (the connection still
needs its keys to drain queued data). -/
theorem linger_crypto_wipe_counterexample :
    sampleConnected.cryptKeysValid = true ∧
    ((SetState sampleConnected .Linger 5).1).state = ConnState.Linger ∧
    ((SetState sampleConnected .Linger 5).1).cryptKeysValid = true ∧
    ((SetState sampleConnected .Linger 5).1).cryptIVRecv =
      [1, 0, 0, 0, 0, 0, 0, 0, 9, 9, 9, 9] :=
  ⟨rfl, rfl, rfl, rfl⟩

/-- C3 (amended).  On every transition of a connection into the `Linger`
state, the stats collaborator is marked disconnected, but the crypto state
is preserved, not wiped: the validity flag, cipher contexts, base IVs,
key-exchange private key and remote cert/crypt messages are all unchanged. -/
theorem linger_entry_effects (c : Conn) (usecNow : Nat) (h : c.state ≠ .Linger) :
    ((SetState c .Linger usecNow).1).state = ConnState.Linger ∧
    ((SetState c .Linger usecNow).1).statsDisconnected = true ∧
    ((SetState c .Linger usecNow).1).cryptKeysValid = c.cryptKeysValid ∧
    ((SetState c .Linger usecNow).1).cryptContextSend = c.cryptContextSend ∧
    ((SetState c .Linger usecNow).1).cryptContextRecv = c.cryptContextRecv ∧
    ((SetState c .Linger usecNow).1).cryptIVSend = c.cryptIVSend ∧
    ((SetState c .Linger usecNow).1).cryptIVRecv = c.cryptIVRecv ∧
    ((SetState c .Linger usecNow).1).keyExchangePrivateKeyLocal =
      c.keyExchangePrivateKeyLocal ∧
    ((SetState c .Linger usecNow).1).msgCertRemote = c.msgCertRemote ∧
    ((SetState c .Linger usecNow).1).msgCryptRemote = c.msgCryptRemote := by
  have hne : ¬ (ConnState.Linger = c.state) := fun he => h he.symm
  simp [SetState, hne, ConnectionStateChanged,
    CollapseConnectionStateToAPIState, stateValue]

/-- Witness for C3 (amended): entering `Linger` from `Connected` on a
concrete connection. -/
theorem linger_entry_effects_witness :
    ((SetState sampleConnected .Linger 5).1).state = ConnState.Linger ∧
    ((SetState sampleConnected .Linger 5).1).statsDisconnected = true ∧
    ((SetState sampleConnected .Linger 5).1).cryptKeysValid =
      sampleConnected.cryptKeysValid ∧
    ((SetState sampleConnected .Linger 5).1).cryptContextSend =
      sampleConnected.cryptContextSend ∧
    ((SetState sampleConnected .Linger 5).1).cryptContextRecv =
      sampleConnected.cryptContextRecv ∧
    ((SetState sampleConnected .Linger 5).1).cryptIVSend =
      sampleConnected.cryptIVSend ∧
    ((SetState sampleConnected .Linger 5).1).cryptIVRecv =
      sampleConnected.cryptIVRecv ∧
    ((SetState sampleConnected .Linger 5).1).keyExchangePrivateKeyLocal =
      sampleConnected.keyExchangePrivateKeyLocal ∧
    ((SetState sampleConnected .Linger 5).1).msgCertRemote =
      sampleConnected.msgCertRemote ∧
    ((SetState sampleConnected .Linger 5).1).msgCryptRemote =
      sampleConnected.msgCryptRemote :=
  linger_entry_effects sampleConnected 5 (by decide)

/-! Helper lemmas about the IV byte manipulation. -/

theorem take8_append (l m : List Nat) (h : l.length = 8) : (l ++ m).take 8 = l := by
  rw [← h, List.take_left]

theorem drop8_append (l m : List Nat) (h : l.length = 8) : (l ++ m).drop 8 = m := by
  rw [← h, List.drop_left]

/-- Adding and then subtracting the sequence number restores the base IV
exactly (the wraparound subtraction undoes the wraparound addition). -/
theorem adjustIV_roundtrip (iv : List Nat) (n : Nat) (hlen : iv.length = 12)
    (hb : ∀ b ∈ iv, b < 256) : adjustIVSub (adjustIVAdd iv n) n = iv := by
  have htl : (iv.take 8).length = 8 := by
    rw [List.length_take, hlen]
    omega
  have htb : ∀ b ∈ iv.take 8, b < 256 := fun b hbm => hb b (List.mem_of_mem_take hbm)
  have ha : u64ofLE (iv.take 8) < 18446744073709551616 := u64ofLE_lt _ htl htb
  unfold adjustIVAdd adjustIVSub
  rw [take8_append _ _ (u64toLE_length _), drop8_append _ _ (u64toLE_length _),
    u64ofLE_u64toLE]
  have harith :
      ((u64ofLE (iv.take 8) + n) % 18446744073709551616 % 18446744073709551616 +
        (18446744073709551616 - n % 18446744073709551616)) % 18446744073709551616 =
      u64ofLE (iv.take 8) := by
    omega
  rw [harith, u64toLE_u64ofLE _ htl htb, List.take_append_drop]

/-- Counterexample for C2.  At the concrete base IV
`[1,0,0,0,0,0,0,0,9,9,9,9]` and full sequence number 1, the IV handed to
the AEAD cipher by `DecryptDataChunk` (observed through an environment
whose cipher echoes its IV argument) has first byte 2 — the sequence number
is added — whereas XORing would give first byte 0. -/
theorem decrypt_iv_xor_counterexample :
    (DecryptDataChunk sampleEnv sampleConnectedIVProbe 1 [] 0).decrypted =
      some (adjustIVAdd [1, 0, 0, 0, 0, 0, 0, 0, 9, 9, 9, 9] 1) ∧
    adjustIVAdd [1, 0, 0, 0, 0, 0, 0, 0, 9, 9, 9, 9] 1 =
      [2, 0, 0, 0, 0, 0, 0, 0, 9, 9, 9, 9] ∧
    specXorIV [1, 0, 0, 0, 0, 0, 0, 0, 9, 9, 9, 9] 1 =
      [0, 0, 0, 0, 0, 0, 0, 0, 9, 9, 9, 9] ∧
    adjustIVAdd [1, 0, 0, 0, 0, 0, 0, 0, 9, 9, 9, 9] 1 ≠
      specXorIV [1, 0, 0, 0, 0, 0, 0, 0, 9, 9, 9, 9] 1 := by
  refine ⟨?_, by decide, by decide, by decide⟩
  decide

/-- C2 (amended).  For every 12-byte base IV and positive full sequence
number, the IV handed to the AEAD cipher equals the base IV with its first
8 bytes, read as a little-endian 64-bit integer, incremented by the full
sequence number modulo `2^64` (the remaining 4 bytes unchanged); and, as
long as no sequence-lurch transition fires, `DecryptDataChunk` restores the
stored base IV afterwards. -/
theorem decrypt_iv_addition (env : CryptoEnv) (c : Conn) (nWireSeqNum : Nat)
    (chunk : List Nat) (usecNow : Nat) (s : Int)
    (hexp : env.expandWirePacketNumber c.maxRecvPktNum nWireSeqNum = s)
    (hs : 0 < s)
    (hlen : c.cryptIVRecv.length = 12)
    (hb : ∀ b ∈ c.cryptIVRecv, b < 256)
    (hgap : s - c.maxRecvPktNum ≤ 0x4000) :
    u64ofLE ((adjustIVAdd c.cryptIVRecv s.toNat).take 8) =
      (u64ofLE (c.cryptIVRecv.take 8) + s.toNat) % 18446744073709551616 ∧
    (adjustIVAdd c.cryptIVRecv s.toNat).drop 8 = c.cryptIVRecv.drop 8 ∧
    (DecryptDataChunk env c nWireSeqNum chunk usecNow).conn.cryptIVRecv =
      c.cryptIVRecv := by
  refine ⟨?_, ?_, ?_⟩
  · unfold adjustIVAdd
    rw [take8_append _ _ (u64toLE_length _), u64ofLE_u64toLE]
    omega
  · unfold adjustIVAdd
    rw [drop8_append _ _ (u64toLE_length _)]
  · have hres := adjustIV_roundtrip c.cryptIVRecv s.toNat hlen hb
    have hns : ¬ s ≤ 0 := by omega
    have hng : ¬ ((16384 : Int) < s - c.maxRecvPktNum) := by omega
    cases hdec : env.aeadDecrypt c.cryptContextRecv
        (adjustIVAdd c.cryptIVRecv s.toNat) chunk with
    | none => simp [DecryptDataChunk, hexp, hns, hdec, hres]
    | some plain => simp [DecryptDataChunk, hexp, hns, hdec, hng, hres]

/-- Witness for C2 (amended): concrete evaluation at base IV
`[1,0,0,0,0,0,0,0,9,9,9,9]` and sequence number 1. -/
theorem decrypt_iv_addition_witness :
    u64ofLE ((adjustIVAdd sampleConnectedIVProbe.cryptIVRecv
        (Int.toNat 1)).take 8) =
      (u64ofLE (sampleConnectedIVProbe.cryptIVRecv.take 8) + Int.toNat 1) %
        18446744073709551616 ∧
    (adjustIVAdd sampleConnectedIVProbe.cryptIVRecv (Int.toNat 1)).drop 8 =
      sampleConnectedIVProbe.cryptIVRecv.drop 8 ∧
    (DecryptDataChunk sampleEnv sampleConnectedIVProbe 1 [] 0).conn.cryptIVRecv =
      sampleConnectedIVProbe.cryptIVRecv :=
  decrypt_iv_addition sampleEnv sampleConnectedIVProbe 1 [] 0 1 rfl
    (by decide) (by decide) (by decide) (by decide)

/-! Helper lemmas about the state-transition side effects. -/

/-- `ConnectionStateChanged` never modifies the end reason, the end-debug
string, or the (already-set) state. -/
theorem ConnectionStateChanged_preserves (c : Conn) (eOldState : ConnState) :
    (ConnectionStateChanged c eOldState).1.endReason = c.endReason ∧
    (ConnectionStateChanged c eOldState).1.endDebug = c.endDebug ∧
    (ConnectionStateChanged c eOldState).1.state = c.state := by
  cases h : c.state <;>
    simp [ConnectionStateChanged, CollapseConnectionStateToAPIState,
      stateValue, h, ClearCrypto]

/-- `ConnectionState_ProblemDetectedLocally` from an operating state with no
end reason recorded yet: the connection moves to `ProblemDetectedLocally`
and records exactly the supplied reason and debug message. -/
theorem problemDetected_records (c : Conn) (eReason : Int) (msg : String)
    (usecNow : Nat)
    (hst : c.state = .Connecting ∨ c.state = .FindingRoute ∨ c.state = .Connected)
    (hr : c.endReason = k_ESteamNetConnectionEnd_Invalid) :
    (ConnectionState_ProblemDetectedLocally c eReason msg usecNow).1.state =
      ConnState.ProblemDetectedLocally ∧
    (ConnectionState_ProblemDetectedLocally c eReason msg usecNow).1.endReason =
      eReason ∧
    (ConnectionState_ProblemDetectedLocally c eReason msg usecNow).1.endDebug =
      msg := by
  rcases hst with h | h | h <;>
    simp [ConnectionState_ProblemDetectedLocally, hr, h, SetState,
      ConnectionStateChanged, CollapseConnectionStateToAPIState, stateValue,
      ClearCrypto]

/-- C5.  Sequence-lurch policing in `DecryptDataChunk`: when a packet
decrypts successfully with full sequence number `s` and the maximum
previously received sequence number is `m`, a gap `s - m > 0x4000` discards
the packet and moves the connection to `ProblemDetectedLocally` with reason
`Misc_Generic` and a debug string beginning "Pkt number lurch by " followed
by the decimal gap; a gap of at most `0x4000` causes no state change and the
packet is accepted. -/
theorem sequence_lurch_policing (env : CryptoEnv) (c : Conn) (nWireSeqNum : Nat)
    (chunk : List Nat) (usecNow : Nat) (s : Int) (plain : List Nat)
    (hexp : env.expandWirePacketNumber c.maxRecvPktNum nWireSeqNum = s)
    (hs : 0 < s)
    (hdec : env.aeadDecrypt c.cryptContextRecv
      (adjustIVAdd c.cryptIVRecv s.toNat) chunk = some plain)
    (hstate : c.state = .Connected)
    (hreason : c.endReason = k_ESteamNetConnectionEnd_Invalid) :
    ((0x4000 : Int) < s - c.maxRecvPktNum →
      (DecryptDataChunk env c nWireSeqNum chunk usecNow).ret = 0 ∧
      (DecryptDataChunk env c nWireSeqNum chunk usecNow).conn.state =
        ConnState.ProblemDetectedLocally ∧
      (DecryptDataChunk env c nWireSeqNum chunk usecNow).conn.endReason =
        k_ESteamNetConnectionEnd_Misc_Generic ∧
      ∃ rest,
        (DecryptDataChunk env c nWireSeqNum chunk usecNow).conn.endDebug =
          "Pkt number lurch by " ++ toString (s - c.maxRecvPktNum) ++ rest) ∧
    (s - c.maxRecvPktNum ≤ (0x4000 : Int) →
      (DecryptDataChunk env c nWireSeqNum chunk usecNow).ret = s ∧
      (DecryptDataChunk env c nWireSeqNum chunk usecNow).conn.state = c.state ∧
      (DecryptDataChunk env c nWireSeqNum chunk usecNow).conn.endReason =
        c.endReason ∧
      (DecryptDataChunk env c nWireSeqNum chunk usecNow).conn.endDebug =
        c.endDebug) := by
  have hns : ¬ s ≤ 0 := by omega
  constructor
  · intro hgap
    have hrec := problemDetected_records
      { c with cryptIVRecv := adjustIVSub (adjustIVAdd c.cryptIVRecv s.toNat) s.toNat }
      k_ESteamNetConnectionEnd_Misc_Generic
      ("Pkt number lurch by " ++ toString (s - c.maxRecvPktNum) ++ "; " ++
        hex4 (c.maxRecvPktNum % 65536).toNat ++ "->" ++ hex4 nWireSeqNum)
      usecNow (Or.inr (Or.inr hstate)) hreason
    have hd : DecryptDataChunk env c nWireSeqNum chunk usecNow =
        { ret := 0,
          conn := (ConnectionState_ProblemDetectedLocally
            { c with cryptIVRecv :=
                adjustIVSub (adjustIVAdd c.cryptIVRecv s.toNat) s.toNat }
            k_ESteamNetConnectionEnd_Misc_Generic
            ("Pkt number lurch by " ++ toString (s - c.maxRecvPktNum) ++ "; " ++
              hex4 (c.maxRecvPktNum % 65536).toNat ++ "->" ++ hex4 nWireSeqNum)
            usecNow).1,
          cbs := (ConnectionState_ProblemDetectedLocally
            { c with cryptIVRecv :=
                adjustIVSub (adjustIVAdd c.cryptIVRecv s.toNat) s.toNat }
            k_ESteamNetConnectionEnd_Misc_Generic
            ("Pkt number lurch by " ++ toString (s - c.maxRecvPktNum) ++ "; " ++
              hex4 (c.maxRecvPktNum % 65536).toNat ++ "->" ++ hex4 nWireSeqNum)
            usecNow).2,
          decrypted := some plain } := by
      simp [DecryptDataChunk, hexp, hns, hdec, hgap]
    rw [hd]
    exact ⟨rfl, hrec.1, hrec.2.1,
      ⟨"; " ++ hex4 (c.maxRecvPktNum % 65536).toNat ++ "->" ++ hex4 nWireSeqNum,
       by rw [hrec.2.2]; simp [String.append_assoc]⟩⟩
  · intro hgap
    have hng : ¬ ((16384 : Int) < s - c.maxRecvPktNum) := by omega
    simp [DecryptDataChunk, hexp, hns, hdec, hng]

/-- `SetState` never modifies the end reason or the end-debug string. -/
theorem SetState_preserves_end (c : Conn) (eNewState : ConnState) (usecNow : Nat) :
    (SetState c eNewState usecNow).1.endReason = c.endReason ∧
    (SetState c eNewState usecNow).1.endDebug = c.endDebug := by
  by_cases h : eNewState = c.state
  · simp [SetState, h]
  · have hp := ConnectionStateChanged_preserves
      { c with state := eNewState, usecWhenEnteredState := usecNow } c.state
    simp only [SetState, if_neg h]
    exact ⟨hp.1, hp.2.1⟩

/-- `ConnectionState_FinWait` never modifies the end reason or the
end-debug string. -/
theorem ConnectionState_FinWait_preserves (c : Conn) (usecNow : Nat) :
    (ConnectionState_FinWait c usecNow).1.endReason = c.endReason ∧
    (ConnectionState_FinWait c usecNow).1.endDebug = c.endDebug := by
  have hs := SetState_preserves_end c .FinWait usecNow
  cases h : c.state <;> simp [ConnectionState_FinWait, h, hs.1, hs.2]

/-- The closing switch of `APICloseConnection` never modifies the end
reason or the end-debug string. -/
theorem APICloseConnection_switch_preserves (c : Conn) (bEnableLinger : Bool)
    (usecNow : Nat) :
    (APICloseConnection_switch c bEnableLinger usecNow).1.endReason = c.endReason ∧
    (APICloseConnection_switch c bEnableLinger usecNow).1.endDebug = c.endDebug := by
  have hf := ConnectionState_FinWait_preserves c usecNow
  have hl := SetState_preserves_end c .Linger usecNow
  cases h : c.state <;>
    [skip; skip; skip; cases bEnableLinger; skip; skip; skip; skip; skip] <;>
    simp [APICloseConnection_switch, h, hf.1, hf.2, hl.1, hl.2]

/-- The reason-recording block does not change the connection state. -/
theorem APICloseConnection_record_state (c : Conn) (nReason : Int)
    (pszDebug : Option String) :
    (APICloseConnection_record c nReason pszDebug).state = c.state := by
  unfold APICloseConnection_record
  dsimp only
  repeat' split
  all_goals rfl

/-- Counterexample for C8.  A supplied reason of 0 is outside
`[App_Min..AppException_Max]`, yet on a connected connection it is replaced
by `App_Generic` (not `App_Max`) and the debug string is the default
"Application closed connection", not "Invalid numeric reason code". -/
theorem close_reason_zero_counterexample :
    (APICloseConnection sampleConnected 0 none false 3).1.endReason =
      k_ESteamNetConnectionEnd_App_Generic ∧
    (APICloseConnection sampleConnected 0 none false 3).1.endDebug =
      "Application closed connection" ∧
    k_ESteamNetConnectionEnd_App_Generic ≠ k_ESteamNetConnectionEnd_App_Max ∧
    "Application closed connection" ≠ "Invalid numeric reason code" :=
  ⟨rfl, rfl, by decide, by decide⟩

/-- C8 (amended).  For every call to `APICloseConnection` on a connection
eligible to record an end reason whose end-debug string is still empty, a
supplied nonzero numeric reason outside `[App_Min..AppException_Max]` is
replaced by `App_Max` and the end-debug string is set to
"Invalid numeric reason code".  (A reason of exactly 0 is instead replaced
by `App_Generic` with the default debug string.) -/
theorem close_reason_validation (c : Conn) (nReason : Int)
    (pszDebug : Option String) (bEnableLinger : Bool) (usecNow : Nat)
    (helig : c.endReason = k_ESteamNetConnectionEnd_Invalid ∨
      c.state = .Connecting ∨ c.state = .FindingRoute ∨ c.state = .Connected)
    (hnz : ¬ nReason = 0)
    (hout : nReason < k_ESteamNetConnectionEnd_App_Min ∨
      nReason > k_ESteamNetConnectionEnd_AppException_Max)
    (hdbg : c.endDebug = "") :
    (APICloseConnection c nReason pszDebug bEnableLinger usecNow).1.endReason =
      k_ESteamNetConnectionEnd_App_Max ∧
    (APICloseConnection c nReason pszDebug bEnableLinger usecNow).1.endDebug =
      "Invalid numeric reason code" := by
  have hrec : (APICloseConnection_record c nReason pszDebug).endReason =
      k_ESteamNetConnectionEnd_App_Max ∧
      (APICloseConnection_record c nReason pszDebug).endDebug =
        "Invalid numeric reason code" := by
    unfold APICloseConnection_record
    rw [if_pos helig, if_neg hnz, if_pos hout]
    simp [hdbg]
  have hsw := APICloseConnection_switch_preserves
    (APICloseConnection_record c nReason pszDebug) bEnableLinger usecNow
  exact ⟨hsw.1.trans hrec.1, hsw.2.trans hrec.2⟩

/-- Witness for C8 (amended): closing a connected connection with the
out-of-range reason 5 records `App_Max` and the debug string
"Invalid numeric reason code". -/
theorem close_reason_validation_witness :
    (APICloseConnection sampleConnected 5 none false 3).1.endReason =
      k_ESteamNetConnectionEnd_App_Max ∧
    (APICloseConnection sampleConnected 5 none false 3).1.endDebug =
      "Invalid numeric reason code" :=
  close_reason_validation sampleConnected 5 none false 3
    (Or.inr (Or.inr (Or.inr rfl))) (by decide) (Or.inl (by decide)) rfl

/-! Helper lemmas for the handshake theorems. -/

theorem InitLocalCryptoWithUnsignedCert_state (env : CryptoEnv)
    (p : IfaceParams) (c : Conn) :
    (InitLocalCryptoWithUnsignedCert env p c).state = c.state := rfl

theorem InitLocalCryptoWithUnsignedCert_endReason (env : CryptoEnv)
    (p : IfaceParams) (c : Conn) :
    (InitLocalCryptoWithUnsignedCert env p c).endReason = c.endReason := rfl

/-- The entry checks of `BRecvCryptoHandshake` reduce, for a handshake that
passes them, to the cert-check stage on the connection with the parsed
remote cert recorded (and a self-signed local cert generated when none was
installed). -/
theorem BRecvCryptoHandshake_entry (env : CryptoEnv) (p : IfaceParams)
    (c : Conn) (msgCert : SignedCert) (msgSessionInfo : SignedCryptInfo)
    (bServer : Bool) (usecNow : Nat) (certBytes infoBytes : List Nat)
    (certRemote : Cert)
    (hkeys : c.cryptKeysValid = false)
    (hcert : msgCert.cert = some certBytes)
    (hinfo : msgSessionInfo.info = some infoBytes)
    (hparse : env.parseCert certBytes = some certRemote)
    (hkt : certRemote.key_type = k_EKeyType_ED25519)
    (hvk : env.validSigningKey certRemote.key_data = true) :
    BRecvCryptoHandshake env p c msgCert msgSessionInfo bServer usecNow =
      recvHandshakeCertChecks env p
        (if c.msgSignedCertLocal.cert.isSome then
          { c with msgCertRemote := certRemote }
         else InitLocalCryptoWithUnsignedCert env p
          { c with msgCertRemote := certRemote })
        msgCert certRemote certBytes infoBytes bServer usecNow := by
  simp [BRecvCryptoHandshake, hkeys, hcert, hinfo, hparse, hkt, hvk]

/-- The AppID-mismatch failure of the cert-check stage: with the peer cert
bound to app `aid ≠ appID`, the stage fails and records
`Remote_BadCert` with the exact mismatch message. -/
theorem certChecks_appid_mismatch (env : CryptoEnv) (p : IfaceParams)
    (c : Conn) (msgCert : SignedCert) (certRemote : Cert)
    (certBytes infoBytes : List Nat) (bServer : Bool) (usecNow : Nat) (aid : Nat)
    (haid : certRemote.app_id = some aid)
    (hne : aid ≠ p.appID)
    (hst : c.state = .Connecting ∨ c.state = .FindingRoute ∨ c.state = .Connected)
    (hr : c.endReason = k_ESteamNetConnectionEnd_Invalid) :
    (recvHandshakeCertChecks env p c msgCert certRemote certBytes infoBytes
        bServer usecNow).1 = false ∧
    (recvHandshakeCertChecks env p c msgCert certRemote certBytes infoBytes
        bServer usecNow).2.1.state = ConnState.ProblemDetectedLocally ∧
    (recvHandshakeCertChecks env p c msgCert certRemote certBytes infoBytes
        bServer usecNow).2.1.endReason = k_ESteamNetConnectionEnd_Remote_BadCert ∧
    (recvHandshakeCertChecks env p c msgCert certRemote certBytes infoBytes
        bServer usecNow).2.1.endDebug =
      "Cert is for AppID " ++ toString aid ++ " instead of " ++
        toString p.appID := by
  have hrec := problemDetected_records c k_ESteamNetConnectionEnd_Remote_BadCert
    ("Cert is for AppID " ++ toString aid ++ " instead of " ++ toString p.appID)
    usecNow hst hr
  simp only [recvHandshakeCertChecks, haid, if_pos hne, hsFail]
  exact ⟨trivial, hrec.1, hrec.2.1, hrec.2.2⟩

/-- The success path of the cert-check stage: an unsigned peer cert bound to
the local app id and to the expected identity, under the allow-with-warning
policy, proceeds through key exchange and derivation and validates the
session keys. -/
theorem certChecks_success (env : CryptoEnv) (p : IfaceParams) (c : Conn)
    (msgCert : SignedCert) (certRemote : Cert) (certBytes infoBytes : List Nat)
    (bServer : Bool) (usecNow : Nat) (cryptRemote : CryptInfo)
    (premaster : List Nat)
    (haid : certRemote.app_id = some p.appID)
    (hdc : certRemote.gameserver_datacenter_ids = [])
    (hid : env.identityFromCert certRemote = .ok c.identityRemote)
    (hsig : msgCert.ca_signature = none)
    (hpol : p.remoteUnsignedCertPolicy = 1)
    (hpc : env.parseCryptInfo infoBytes = some cryptRemote)
    (hver : k_nMinRequiredProtocolVersion ≤ cryptRemote.protocol_version)
    (hpeer : c.peerProtocolVersion = 0)
    (hkt2 : cryptRemote.key_type = k_EKeyType_CURVE25519)
    (hvkx : env.validKeyExchangeKey cryptRemote.key_data = true)
    (hkx : env.keyExchange c.keyExchangePrivateKeyLocal cryptRemote.key_data =
      some premaster)
    (hctx : ∀ k, env.ctxInit k = true) :
    (recvHandshakeCertChecks env p c msgCert certRemote certBytes infoBytes
        bServer usecNow).1 = true ∧
    (recvHandshakeCertChecks env p c msgCert certRemote certBytes infoBytes
        bServer usecNow).2.1.cryptKeysValid = true := by
  have hnl : ¬ (cryptRemote.protocol_version < k_nMinRequiredProtocolVersion) := by
    omega
  simp [recvHandshakeCertChecks, recvHandshakeIdentityChecks,
    recvHandshakeSignature, recvHandshakeCrypt, haid, hdc, hid, hsig, hpol,
    hpc, hnl, hpeer, hkt2, hvkx, hkx, hctx]

/-- C9.  AppID binding check in `BRecvCryptoHandshake`: a peer cert carrying
an `app_id` different from the local app id makes the handshake fail, moving
the connection to `ProblemDetectedLocally` with reason `Remote_BadCert` and
the end-debug string "Cert is for AppID r instead of l"; a cert whose
`app_id` equals the local app id passes this check, and the handshake
succeeds when the remaining checks pass. -/
theorem appid_binding_check (env : CryptoEnv) (p : IfaceParams) (c : Conn)
    (msgCert : SignedCert) (msgSessionInfo : SignedCryptInfo) (bServer : Bool)
    (usecNow : Nat) (certBytes infoBytes : List Nat) (certRemote : Cert)
    (aid : Nat) (cryptRemote : CryptInfo) (premaster : List Nat)
    (hkeys : c.cryptKeysValid = false)
    (hcert : msgCert.cert = some certBytes)
    (hinfo : msgSessionInfo.info = some infoBytes)
    (hparse : env.parseCert certBytes = some certRemote)
    (hkt : certRemote.key_type = k_EKeyType_ED25519)
    (hvk : env.validSigningKey certRemote.key_data = true)
    (haid : certRemote.app_id = some aid)
    (hstate : c.state = .Connecting)
    (hreason : c.endReason = k_ESteamNetConnectionEnd_Invalid) :
    (aid ≠ p.appID →
      (BRecvCryptoHandshake env p c msgCert msgSessionInfo bServer usecNow).1 =
        false ∧
      (BRecvCryptoHandshake env p c msgCert msgSessionInfo bServer
        usecNow).2.1.state = ConnState.ProblemDetectedLocally ∧
      (BRecvCryptoHandshake env p c msgCert msgSessionInfo bServer
        usecNow).2.1.endReason = k_ESteamNetConnectionEnd_Remote_BadCert ∧
      (BRecvCryptoHandshake env p c msgCert msgSessionInfo bServer
        usecNow).2.1.endDebug =
        "Cert is for AppID " ++ toString aid ++ " instead of " ++
          toString p.appID) ∧
    (aid = p.appID →
      c.msgSignedCertLocal.cert.isSome = true →
      certRemote.gameserver_datacenter_ids = [] →
      env.identityFromCert certRemote = .ok c.identityRemote →
      msgCert.ca_signature = none →
      p.remoteUnsignedCertPolicy = 1 →
      env.parseCryptInfo infoBytes = some cryptRemote →
      k_nMinRequiredProtocolVersion ≤ cryptRemote.protocol_version →
      c.peerProtocolVersion = 0 →
      cryptRemote.key_type = k_EKeyType_CURVE25519 →
      env.validKeyExchangeKey cryptRemote.key_data = true →
      env.keyExchange c.keyExchangePrivateKeyLocal cryptRemote.key_data =
        some premaster →
      (∀ k, env.ctxInit k = true) →
      (BRecvCryptoHandshake env p c msgCert msgSessionInfo bServer usecNow).1 =
        true ∧
      (BRecvCryptoHandshake env p c msgCert msgSessionInfo bServer
        usecNow).2.1.cryptKeysValid = true) := by
  constructor
  · intro hne
    rw [BRecvCryptoHandshake_entry env p c msgCert msgSessionInfo bServer
      usecNow certBytes infoBytes certRemote hkeys hcert hinfo hparse hkt hvk]
    by_cases hloc : c.msgSignedCertLocal.cert.isSome = true
    · rw [if_pos hloc]
      exact certChecks_appid_mismatch env p { c with msgCertRemote := certRemote }
        msgCert certRemote certBytes infoBytes bServer usecNow aid haid hne
        (Or.inl hstate) hreason
    · rw [if_neg hloc]
      exact certChecks_appid_mismatch env p
        (InitLocalCryptoWithUnsignedCert env p { c with msgCertRemote := certRemote })
        msgCert certRemote certBytes infoBytes bServer usecNow aid haid hne
        (Or.inl hstate) hreason
  · intro heq hloc hdc hid hsig hpol hpc hver hpeer hkt2 hvkx hkx hctx
    rw [BRecvCryptoHandshake_entry env p c msgCert msgSessionInfo bServer
      usecNow certBytes infoBytes certRemote hkeys hcert hinfo hparse hkt hvk,
      if_pos hloc]
    subst heq
    exact certChecks_success env p { c with msgCertRemote := certRemote }
      msgCert certRemote certBytes infoBytes bServer usecNow cryptRemote
      premaster haid hdc hid hsig hpol hpc hver hpeer hkt2 hvkx hkx hctx

/-- Witness for C9: with local app id 480, a peer cert bound to app 730
fails the handshake with `Remote_BadCert` and debug
"Cert is for AppID 730 instead of 480", while the same handshake with a
cert bound to app 480 succeeds and validates the keys. -/
theorem appid_binding_check_witness :
    ((BRecvCryptoHandshake sampleEnv { appID := 480, identityLocal := .localHost }
        sampleConnecting { cert := some [14] } { info := some [11] } false 0).1 =
      false ∧
     (BRecvCryptoHandshake sampleEnv { appID := 480, identityLocal := .localHost }
        sampleConnecting { cert := some [14] } { info := some [11] } false
        0).2.1.state = ConnState.ProblemDetectedLocally ∧
     (BRecvCryptoHandshake sampleEnv { appID := 480, identityLocal := .localHost }
        sampleConnecting { cert := some [14] } { info := some [11] } false
        0).2.1.endReason = k_ESteamNetConnectionEnd_Remote_BadCert ∧
     (BRecvCryptoHandshake sampleEnv { appID := 480, identityLocal := .localHost }
        sampleConnecting { cert := some [14] } { info := some [11] } false
        0).2.1.endDebug =
       "Cert is for AppID " ++ toString (730 : Nat) ++ " instead of " ++
         toString (480 : Nat)) ∧
    ((BRecvCryptoHandshake sampleEnv { appID := 480, identityLocal := .localHost }
        sampleConnecting { cert := some [10] } { info := some [11] } false 0).1 =
      true ∧
     (BRecvCryptoHandshake sampleEnv { appID := 480, identityLocal := .localHost }
        sampleConnecting { cert := some [10] } { info := some [11] } false
        0).2.1.cryptKeysValid = true) :=
  ⟨(appid_binding_check sampleEnv { appID := 480, identityLocal := .localHost }
      sampleConnecting { cert := some [14] } { info := some [11] } false 0
      [14] [11] sampleRemoteCert730 730 sampleRemoteCrypt [7] rfl rfl rfl
      (by decide) rfl rfl rfl rfl rfl).1 (by decide),
   (appid_binding_check sampleEnv { appID := 480, identityLocal := .localHost }
      sampleConnecting { cert := some [10] } { info := some [11] } false 0
      [10] [11] sampleRemoteCert 480 sampleRemoteCrypt [7] rfl rfl rfl
      (by decide) rfl rfl rfl rfl rfl).2 rfl rfl rfl rfl rfl rfl rfl
      (by decide) rfl rfl rfl rfl (fun _ => rfl)⟩

/-! Lemmas about the connection-ID selection loop. -/

/-- Any ID the selection loop returns passed the sanity checks. -/
theorem pickConnIDLoop_ok (cands : Nat → Nat) (recent live : List Nat) :
    ∀ fuel i id, pickConnIDLoop cands recent live i fuel = .ok id →
      connIDOk recent live id = true := by
  intro fuel
  induction fuel with
  | zero => intro i id h; simp [pickConnIDLoop] at h
  | succ f ih =>
    intro i id h
    simp only [pickConnIDLoop] at h
    by_cases hc : connIDOk recent live (cands i % 4294967296) = true
    · rw [if_pos hc] at h
      cases h
      exact hc
    · rw [if_neg hc] at h
      exact ih (i + 1) id h

/-- If every generated candidate fails the sanity checks, the loop runs out
of tries and reports the failure. -/
theorem pickConnIDLoop_error (cands : Nat → Nat) (recent live : List Nat) :
    ∀ fuel i,
      (∀ j, j < fuel → connIDOk recent live (cands (i + j) % 4294967296) = false) →
      pickConnIDLoop cands recent live i fuel =
        .error "Unable to find unique connection ID" := by
  intro fuel
  induction fuel with
  | zero => intro i _; rfl
  | succ f ih =>
    intro i hall
    have h0 : connIDOk recent live (cands i % 4294967296) = false := by
      simpa using hall 0 (Nat.succ_pos f)
    simp only [pickConnIDLoop, h0, Bool.false_eq_true, if_false]
    exact ih (i + 1) fun j hj => by
      have hh := hall (j + 1) (by omega)
      rwa [show i + (j + 1) = i + 1 + j by omega] at hh

/-- The first candidate passing the sanity checks is the one returned. -/
theorem pickConnIDLoop_first (cands : Nat → Nat) (recent live : List Nat) :
    ∀ k fuel i, k < fuel →
      (∀ j, j < k → connIDOk recent live (cands (i + j) % 4294967296) = false) →
      connIDOk recent live (cands (i + k) % 4294967296) = true →
      pickConnIDLoop cands recent live i fuel =
        .ok (cands (i + k) % 4294967296) := by
  intro k
  induction k with
  | zero =>
    intro fuel i hk _ hok
    cases fuel with
    | zero => omega
    | succ f =>
      have hok0 : connIDOk recent live (cands i % 4294967296) = true := by
        simpa using hok
      simp [pickConnIDLoop, hok0]
  | succ kk ih =>
    intro fuel i hk hprev hok
    cases fuel with
    | zero => omega
    | succ f =>
      have h0 : connIDOk recent live (cands i % 4294967296) = false := by
        simpa using hprev 0 (by omega)
      simp only [pickConnIDLoop, h0, Bool.false_eq_true, if_false]
      have hprev1 : ∀ j, j < kk →
          connIDOk recent live (cands (i + 1 + j) % 4294967296) = false := by
        intro j hj
        have hh := hprev (j + 1) (by omega)
        rwa [show i + (j + 1) = i + 1 + j by omega] at hh
      have hok1 : connIDOk recent live (cands (i + 1 + kk) % 4294967296) = true := by
        rwa [show i + (kk + 1) = i + 1 + kk by omega] at hok
      rw [ih f (i + 1) (by omega) hprev1 hok1]
      rw [show i + 1 + kk = i + (kk + 1) by omega]

/-- C6.  Connection-ID allocation: whenever the ID selection of
`BInitConnection` succeeds, the chosen ID has both 16-bit halves nonzero and
its low 16 bits are absent from the recent-ID ring and from the live
connection table; candidates failing any check are discarded and the next
random candidate is tried; and if all 10000 tries fail, the call fails with
"Unable to find unique connection ID". -/
theorem connection_id_allocation (cands : Nat → Nat) (recent live : List Nat)
    (hcap : live.length < 0x1fff) :
    (∀ id, BInitConnection_SelectID cands recent live = .ok id →
      id % 65536 ≠ 0 ∧ id / 65536 % 65536 ≠ 0 ∧
      id % 65536 ∉ recent ∧ id % 65536 ∉ live) ∧
    (∀ k, k < 10000 →
      (∀ j, j < k → connIDOk recent live (cands j % 4294967296) = false) →
      connIDOk recent live (cands k % 4294967296) = true →
      BInitConnection_SelectID cands recent live =
        .ok (cands k % 4294967296)) ∧
    ((∀ j, j < 10000 → connIDOk recent live (cands j % 4294967296) = false) →
      BInitConnection_SelectID cands recent live =
        .error "Unable to find unique connection ID") := by
  have hnot : ¬ live.length ≥ 0x1fff := by omega
  refine ⟨?_, ?_, ?_⟩
  · intro id h
    rw [BInitConnection_SelectID, if_neg hnot] at h
    have hok := pickConnIDLoop_ok cands recent live 10000 0 id h
    have hok2 : ((id % 65536 ≠ 0 ∧ id / 65536 % 65536 ≠ 0) ∧
        id % 65536 ∉ recent) ∧ id % 65536 ∉ live := by
      simpa [connIDOk] using hok
    exact ⟨hok2.1.1.1, hok2.1.1.2, hok2.1.2, hok2.2⟩
  · intro k hk hprev hok
    rw [BInitConnection_SelectID, if_neg hnot]
    have hh := pickConnIDLoop_first cands recent live k 10000 0 hk
      (by simpa using hprev) (by simpa using hok)
    simpa using hh
  · intro hall
    rw [BInitConnection_SelectID, if_neg hnot]
    exact pickConnIDLoop_error cands recent live 10000 0 fun j hj => by
      simpa using hall j hj

/-- Witness for C6: with a candidate stream whose first value has a zero
upper half, second value collides with the live table, and third value is
good, the third candidate is selected and satisfies the invariant; and with
a constant bad stream, the selection fails with the documented message. -/
theorem connection_id_allocation_witness :
    ((fun id => id % 65536 ≠ 0 ∧ id / 65536 % 65536 ≠ 0 ∧
        id % 65536 ∉ [7] ∧ id % 65536 ∉ [9]) 131074 ∧
      BInitConnection_SelectID
        (fun i => if i = 0 then 3 else if i = 1 then 65545 else 131074)
        [7] [9] = .ok 131074) ∧
    BInitConnection_SelectID (fun _ => 3) [7] [9] =
      .error "Unable to find unique connection ID" :=
  ⟨⟨(connection_id_allocation
      (fun i => if i = 0 then 3 else if i = 1 then 65545 else 131074)
      [7] [9] (by decide)).1 131074
      ((connection_id_allocation
        (fun i => if i = 0 then 3 else if i = 1 then 65545 else 131074)
        [7] [9] (by decide)).2.1 2 (by decide) (by decide) (by decide)),
    (connection_id_allocation
      (fun i => if i = 0 then 3 else if i = 1 then 65545 else 131074)
      [7] [9] (by decide)).2.1 2 (by decide) (by decide) (by decide)⟩,
   (connection_id_allocation (fun _ => 3) [7] [9] (by decide)).2.2
     (fun j _ => by decide)⟩

/-- Witness for C5: with `m = 100` and `s = 16485` (wire sequence `0x4065`),
the gap is `16385 > 0x4000`: the packet is discarded, the connection moves
to `ProblemDetectedLocally (Misc_Generic)` and the debug string starts with
"Pkt number lurch by 16385"; with `s = 101` the packet is accepted
unchanged. -/
theorem sequence_lurch_policing_witness :
    ((DecryptDataChunk sampleEnv sampleConnected 16485 [] 0).ret = 0 ∧
     (DecryptDataChunk sampleEnv sampleConnected 16485 [] 0).conn.state =
       ConnState.ProblemDetectedLocally ∧
     (DecryptDataChunk sampleEnv sampleConnected 16485 [] 0).conn.endReason =
       k_ESteamNetConnectionEnd_Misc_Generic ∧
     ∃ rest,
       (DecryptDataChunk sampleEnv sampleConnected 16485 [] 0).conn.endDebug =
         "Pkt number lurch by " ++ toString ((16485 : Int) - 100) ++ rest) ∧
    ((DecryptDataChunk sampleEnv sampleConnected 101 [] 0).ret = 101 ∧
     (DecryptDataChunk sampleEnv sampleConnected 101 [] 0).conn.state =
       sampleConnected.state ∧
     (DecryptDataChunk sampleEnv sampleConnected 101 [] 0).conn.endReason =
       sampleConnected.endReason ∧
     (DecryptDataChunk sampleEnv sampleConnected 101 [] 0).conn.endDebug =
       sampleConnected.endDebug) :=
  ⟨(sequence_lurch_policing sampleEnv sampleConnected 16485 [] 0 16485
      (adjustIVAdd sampleConnected.cryptIVRecv 16485) rfl (by decide) rfl rfl
      rfl).1 (by decide),
   (sequence_lurch_policing sampleEnv sampleConnected 101 [] 0 101
      (adjustIVAdd sampleConnected.cryptIVRecv 101) rfl (by decide) rfl rfl
      rfl).2 (by decide)⟩

end GNS
